import Mathlib

/-!
Shallow embedding of `model_download.py` (repository `fplplayerdesc`).

The script is sequential glue code over the local filesystem and two
external effects (a shell `zip` command and the Colab `files.download`
primitive).  We model the filesystem as an abstract map from paths to
existence/size/ctime, the external effects as oracles carried in a
`World`, and every observable action (console print, `os.system` call,
metadata file write, Colab download call) as an `Event` in an ordered
trace.  Each Python function becomes a pure Lean function returning its
result together with the events it emitted and the updated filesystem.
-/

/-- Filesystem view used by the script: `os.path.exists`, `os.path.getsize`,
`os.path.getctime`.  The ctime (a Python float) is modelled as an integer
timestamp; no claim depends on its value. -/
structure FS where
  pathExists : String → Bool
  size : String → Nat
  ctime : String → Int

/-- Effect of `open(p, 'w'); f.write(content)` when it succeeds: afterwards
the path exists and has the content's length as its size. -/
def FS.writeFile (fs : FS) (p : String) (content : String) : FS where
  pathExists := fun q => if q = p then true else fs.pathExists q
  size := fun q => if q = p then content.length else fs.size q
  ctime := fs.ctime

/-- Ambient run environment: the initial filesystem plus oracles for the
effects whose outcome the script does not control — whether opening a path
for writing raises (`writeOk`, with the exception text `writeErr`), the
`os.system` return value for a given command string (`sysExit`) and the
command's effect on the filesystem (`sysFs`), the Colab detection flag set
at import time (`inColab`), and whether `files.download` raises
(`colabOk`, with exception text `colabErr`). -/
structure World where
  fs : FS
  writeOk : String → Bool
  writeErr : String
  sysExit : String → Int
  sysFs : String → FS → FS
  inColab : Bool
  colabOk : Bool
  colabErr : String

/-- Observable actions of a run, in order of occurrence. -/
inductive Event where
  | print (s : String)
  | system (cmd : String) (code : Int)
  | fileWrite (path : String) (ok : Bool)
  | colabDownload (path : String) (ok : Bool)
deriving DecidableEq, Repr

/-- The single-quote character, written via its code point. -/
def squote : String := String.singleton (Char.ofNat 39)

/-- Index of the last occurrence of `c` in `l`, if any. -/
def lastIdxOf (c : Char) (l : List Char) : Option Nat :=
  (List.range l.length).foldl
    (fun acc i => if l.getD i c == c then some i else acc) none

/-- `os.path.basename` for POSIX paths: everything after the last slash. -/
def basename (p : String) : String :=
  match lastIdxOf '/' p.data with
  | some n => String.mk (List.drop (n + 1) p.data)
  | none => p

/-- The root part of `os.path.splitext` (POSIX): cut at the last dot of the
final component, unless every character of the component before that dot is
itself a dot (so leading-dot names such as `.bashrc` are kept whole). -/
def splitextRoot (p : String) : String :=
  let l := p.data
  let sepIndex : Int := match lastIdxOf '/' l with | some n => (n : Int) | none => -1
  let dotIndex : Int := match lastIdxOf '.' l with | some n => (n : Int) | none => -1
  if dotIndex > sepIndex then
    let start := (sepIndex + 1).toNat
    if (List.drop start (List.take dotIndex.toNat l)).any (fun c => c ≠ '.') then
      String.mk (List.take dotIndex.toNat l)
    else p
  else p

/-- Two-digit zero-padded decimal string. -/
def pad2 (n : Nat) : String :=
  if n < 10 then "0" ++ toString n else toString n

/-- The Python f-string `f"\x7bsize_mb:.2f\x7d MB"` for `size_mb =
size_bytes / (1024*1024)`: the exact ratio rounded to two decimals
(half-to-even, as Python's float formatting rounds), rendered as
`<int>.<2 digits> MB`.  The double-precision articulation of the quotient
is abstracted away; every claim only uses the ` MB` suffix. -/
def formatMB (sizeBytes : Nat) : String :=
  let q := sizeBytes * 100
  let n := q / (1024 * 1024)
  let r := q % (1024 * 1024)
  let h := if 2 * r > 1024 * 1024 then n + 1
           else if 2 * r < 1024 * 1024 then n
           else if n % 2 = 0 then n else n + 1
  toString (h / 100) ++ "." ++ pad2 (h % 100) ++ " MB"

/-- `get_file_size_mb`: size in MB with two decimals, or `"Unknown"` when
the path does not exist. -/
def get_file_size_mb (fs : FS) (file_path : String) : String :=
  if fs.pathExists file_path then formatMB (fs.size file_path) else "Unknown"

/-- `validate_model_file`: existence check, then non-empty check, each with
its console message; on success prints the validated line. -/
def validate_model_file (fs : FS) (model_path : String) : Bool × List Event :=
  if fs.pathExists model_path = false then
    (false, [.print ("❌ Error: Model file " ++ squote ++ model_path ++ squote ++ " not found")])
  else if fs.size model_path = 0 then
    (false, [.print ("❌ Error: Model file " ++ squote ++ model_path ++ squote ++ " is empty")])
  else
    (true, [.print ("✅ Model file validated: " ++ model_path ++ " ("
                    ++ get_file_size_mb fs model_path ++ ")")])

/-- The `metadata_content` f-string of `create_model_metadata`. -/
def metadata_content (fs : FS) (model_path : String) : String :=
  "Model Information\n==================\nModel file: " ++ basename model_path
  ++ "\nFile size: " ++ get_file_size_mb fs model_path
  ++ "\nCreated: " ++ toString (fs.ctime model_path)
  ++ "\nDescription: Fine-tuned disease classification model\n"

/-- The derived metadata path: `splitext(model_path)[0] + "_info.txt"`. -/
def metadata_path (model_path : String) : String :=
  splitextRoot model_path ++ "_info.txt"

/-- `create_model_metadata`: attempt to write the metadata file; on success
return its path, on an exception print a warning and return `None`. -/
def create_model_metadata (w : World) (fs : FS) (model_path : String) :
    Option String × List Event × FS :=
  let content := metadata_content fs model_path
  let mp := metadata_path model_path
  if w.writeOk mp then
    (some mp,
     [.fileWrite mp true, .print ("✅ Model metadata created: " ++ mp)],
     fs.writeFile mp content)
  else
    (none,
     [.fileWrite mp false,
      .print ("⚠️  Warning: Could not create metadata file: " ++ w.writeErr)],
     fs)

/-- The shell command built at lines 87–89: `zip -r <zip> <model>`, with the
metadata path appended when `create_model_metadata` returned a path and that
path exists on the filesystem at command-build time. -/
def build_zip_command (mdOpt : Option String) (fs : FS)
    (model_path zip_name : String) : String :=
  let base := "zip -r " ++ zip_name ++ " " ++ model_path
  match mdOpt with
  | some mdp => if fs.pathExists mdp then base ++ " " ++ mdp else base
  | none => base

/-- `create_zip_archive`: validate, write metadata, build and run the zip
command, succeed exactly when `os.system` returned zero. -/
def create_zip_archive (w : World) (fs : FS) (model_path zip_name : String) :
    Bool × List Event × FS :=
  let ev0 : List Event := [.print "📦 Creating zip file..."]
  let v := validate_model_file fs model_path
  if v.1 = false then
    (false, ev0 ++ v.2, fs)
  else
    let md := create_model_metadata w fs model_path
    let cmd := build_zip_command md.1 md.2.2 model_path zip_name
    let code := w.sysExit cmd
    let fs3 := w.sysFs cmd md.2.2
    if code ≠ 0 then
      (false,
       ev0 ++ v.2 ++ md.2.1
         ++ [.system cmd code,
             .print ("❌ Error: Failed to create zip file (exit code: "
                     ++ toString code ++ ")")],
       fs3)
    else
      (true, ev0 ++ v.2 ++ md.2.1 ++ [.system cmd code], fs3)

/-- `download_model_zip`: existence check on the archive, size report, then
either the Colab `files.download` call (with its try/except) or the
simulated-download messages. -/
def download_model_zip (w : World) (fs : FS) (zip_path : String) :
    Bool × List Event :=
  if fs.pathExists zip_path = false then
    (false, [.print ("❌ Error: Zip file " ++ squote ++ zip_path ++ squote ++ " was not created")])
  else
    let ev0 : List Event :=
      [.print ("✅ Model zipped successfully as " ++ zip_path ++ " ("
               ++ get_file_size_mb fs zip_path ++ ")")]
    if w.inColab then
      if w.colabOk then
        (true, ev0 ++ [.print "🔄 Starting download...",
                       .colabDownload zip_path true,
                       .print "✅ Download initiated!"])
      else
        (false, ev0 ++ [.print "🔄 Starting download...",
                        .colabDownload zip_path false,
                        .print ("❌ Error during download: " ++ w.colabErr)])
    else
      (true, ev0 ++ [.print "🔄 Simulating download (not in Colab environment)...",
                     .print ("   File " ++ squote ++ zip_path ++ squote
                             ++ " would be downloaded in Google Colab"),
                     .print "✅ Download simulation complete!"])

/-- Result of a run of `main`: `sys.exit(code)` or normal completion
(process exit code 0). -/
inductive MainResult where
  | exited (code : Nat)
  | completed
deriving DecidableEq, Repr

/-- The `"=" * 50` separator line. -/
def sep50 : String := String.mk (List.replicate 50 '=')

/-- `main`: fixed model and archive names, archive step then download step,
`sys.exit(1)` as soon as either fails. -/
def main_run (w : World) : MainResult × List Event :=
  let model_path := "fin_disease.pth"
  let zip_name := "fin_disease.zip"
  let ev0 : List Event := [.print "🚀 Starting model download process...", .print sep50]
  let z := create_zip_archive w w.fs model_path zip_name
  if z.1 = false then
    (.exited 1, ev0 ++ z.2.1 ++ [.print "❌ Failed to create zip archive. Aborting."])
  else
    let d := download_model_zip w z.2.2 zip_name
    if d.1 = false then
      (.exited 1, ev0 ++ z.2.1 ++ d.2 ++ [.print "❌ Failed to download zip file. Aborting."])
    else
      (.completed,
       ev0 ++ z.2.1 ++ d.2
         ++ [.print sep50, .print "🎉 Model download process completed successfully!"])

/-- A filesystem with no files at all. -/
def fsEmpty : FS where
  pathExists := fun _ => false
  size := fun _ => 0
  ctime := fun _ => 0

/-- A filesystem holding exactly one file `p` of size `n`. -/
def fsOne (p : String) (n : Nat) : FS where
  pathExists := fun q => q == p
  size := fun q => if q == p then n else 0
  ctime := fun _ => 0

/-- A run environment with constant oracles, used to instantiate theorems
on concrete runs. -/
def mkWorld (fs : FS) (wok : Bool) (ex : Int) (colab cok : Bool) : World where
  fs := fs
  writeOk := fun _ => wok
  writeErr := "disk full"
  sysExit := fun _ => ex
  sysFs := fun _ f => f
  inColab := colab
  colabOk := cok
  colabErr := "download failed"

/-! ### Helper lemmas about the traces of the individual steps -/

/-- `validate_model_file` only prints: its trace holds no other event kind. -/
theorem validate_events_print (fs : FS) (p : String) :
    ∀ ev ∈ (validate_model_file fs p).2, ∃ s, ev = Event.print s := by
  unfold validate_model_file
  split
  · simp
  · split <;> simp

/-- `create_model_metadata` emits a file-write attempt and a print, never a
shell command. -/
theorem metadata_no_system (w : World) (fs : FS) (p c : String) (e : Int) :
    Event.system c e ∉ (create_model_metadata w fs p).2.1 := by
  simp only [create_model_metadata]
  split <;> simp

/-- `download_model_zip` never runs a shell command. -/
theorem download_no_system (w : World) (fs : FS) (zp c : String) (e : Int) :
    Event.system c e ∉ (download_model_zip w fs zp).2 := by
  unfold download_model_zip
  split
  · simp
  · split
    · split <;> simp
    · simp

/-- Equation for `create_zip_archive` when validation fails. -/
theorem czip_of_invalid (w : World) (fs : FS) (p zn : String)
    (hv : (validate_model_file fs p).1 = false) :
    create_zip_archive w fs p zn =
      (false, [Event.print "📦 Creating zip file..."] ++ (validate_model_file fs p).2, fs) := by
  unfold create_zip_archive
  simp [hv]

/-- Equation for `create_zip_archive` when validation passes and the zip
command exits zero. -/
theorem czip_of_valid_ok (w : World) (fs : FS) (p zn : String)
    (hv : (validate_model_file fs p).1 = true)
    (hc : w.sysExit (build_zip_command (create_model_metadata w fs p).1
            (create_model_metadata w fs p).2.2 p zn) = 0) :
    create_zip_archive w fs p zn =
      (true,
       [Event.print "📦 Creating zip file..."] ++ (validate_model_file fs p).2
         ++ (create_model_metadata w fs p).2.1
         ++ [Event.system (build_zip_command (create_model_metadata w fs p).1
               (create_model_metadata w fs p).2.2 p zn) 0],
       w.sysFs (build_zip_command (create_model_metadata w fs p).1
         (create_model_metadata w fs p).2.2 p zn) (create_model_metadata w fs p).2.2) := by
  unfold create_zip_archive
  simp [hv, hc]

/-- Equation for `create_zip_archive` when validation passes and the zip
command exits non-zero. -/
theorem czip_of_valid_fail (w : World) (fs : FS) (p zn : String)
    (hv : (validate_model_file fs p).1 = true)
    (hc : w.sysExit (build_zip_command (create_model_metadata w fs p).1
            (create_model_metadata w fs p).2.2 p zn) ≠ 0) :
    create_zip_archive w fs p zn =
      (false,
       [Event.print "📦 Creating zip file..."] ++ (validate_model_file fs p).2
         ++ (create_model_metadata w fs p).2.1
         ++ [Event.system (build_zip_command (create_model_metadata w fs p).1
               (create_model_metadata w fs p).2.2 p zn)
               (w.sysExit (build_zip_command (create_model_metadata w fs p).1
                 (create_model_metadata w fs p).2.2 p zn)),
             Event.print ("❌ Error: Failed to create zip file (exit code: "
               ++ toString (w.sysExit (build_zip_command (create_model_metadata w fs p).1
                    (create_model_metadata w fs p).2.2 p zn)) ++ ")")],
       w.sysFs (build_zip_command (create_model_metadata w fs p).1
         (create_model_metadata w fs p).2.2 p zn) (create_model_metadata w fs p).2.2) := by
  unfold create_zip_archive
  simp [hv, hc]

/-- A shell-command event in the archive step's trace pins down the whole
step: validation passed, the command is the built zip command, and the code
is its `os.system` status. -/
theorem czip_system_mem (w : World) (fs : FS) (p zn c : String) (e : Int)
    (h : Event.system c e ∈ (create_zip_archive w fs p zn).2.1) :
    (validate_model_file fs p).1 = true ∧
    c = build_zip_command (create_model_metadata w fs p).1
          (create_model_metadata w fs p).2.2 p zn ∧
    e = w.sysExit c := by
  cases hv : (validate_model_file fs p).1 with
  | false =>
    exfalso
    rw [czip_of_invalid w fs p zn hv] at h
    rcases List.mem_append.mp h with h | h
    · simp at h
    · obtain ⟨s, hs⟩ := validate_events_print fs p _ h
      simp at hs
  | true =>
    by_cases hc : w.sysExit (build_zip_command (create_model_metadata w fs p).1
        (create_model_metadata w fs p).2.2 p zn) = 0
    · rw [czip_of_valid_ok w fs p zn hv hc] at h
      rcases List.mem_append.mp h with h | h
      · rcases List.mem_append.mp h with h | h
        · rcases List.mem_append.mp h with h | h
          · simp at h
          · obtain ⟨s, hs⟩ := validate_events_print fs p _ h
            simp at hs
        · exact absurd h (metadata_no_system w fs p c e)
      · simp at h
        obtain ⟨h1, h2⟩ := h
        refine ⟨rfl, h1, ?_⟩
        rw [h2, h1, hc]
    · rw [czip_of_valid_fail w fs p zn hv hc] at h
      rcases List.mem_append.mp h with h | h
      · rcases List.mem_append.mp h with h | h
        · rcases List.mem_append.mp h with h | h
          · simp at h
          · obtain ⟨s, hs⟩ := validate_events_print fs p _ h
            simp at hs
        · exact absurd h (metadata_no_system w fs p c e)
      · simp at h
        obtain ⟨h1, h2⟩ := h
        refine ⟨rfl, h1, ?_⟩
        rw [h2, h1]

/-- A successful archive step means validation passed and the zip command
returned status zero. -/
theorem czip_true_exit (w : World) (fs : FS) (p zn : String)
    (ht : (create_zip_archive w fs p zn).1 = true) :
    (validate_model_file fs p).1 = true ∧
    w.sysExit (build_zip_command (create_model_metadata w fs p).1
      (create_model_metadata w fs p).2.2 p zn) = 0 := by
  cases hv : (validate_model_file fs p).1 with
  | false =>
    rw [czip_of_invalid w fs p zn hv] at ht
    simp at ht
  | true =>
    by_cases hc : w.sysExit (build_zip_command (create_model_metadata w fs p).1
        (create_model_metadata w fs p).2.2 p zn) = 0
    · exact ⟨rfl, hc⟩
    · rw [czip_of_valid_fail w fs p zn hv hc] at ht
      simp at ht

/-- Strings with different first characters are different. -/
theorem string_head_ne {s t : String} (h : s.data.head? ≠ t.data.head?) : s ≠ t :=
  fun he => h (he ▸ rfl)

/-! ### The claims -/

/-- Claim C1: for every run of `main` where the model file path
`fin_disease.pth` does not exist, the process exits with a non-zero exit
code (`sys.exit(1)`) and prints a message containing the missing file's
path. -/
theorem C1_missing_model_fatal (w : World)
    (h : w.fs.pathExists "fin_disease.pth" = false) :
    (main_run w).1 = .exited 1 ∧
    ∃ s, Event.print s ∈ (main_run w).2 ∧
      ∃ pre post, s = pre ++ "fin_disease.pth" ++ post := by
  have hv : (validate_model_file w.fs "fin_disease.pth").1 = false := by
    unfold validate_model_file
    simp [h]
  have hvt : (validate_model_file w.fs "fin_disease.pth").2 =
      [Event.print ("❌ Error: Model file " ++ squote ++ "fin_disease.pth"
        ++ squote ++ " not found")] := by
    unfold validate_model_file
    simp [h]
  have hz := czip_of_invalid w w.fs "fin_disease.pth" "fin_disease.zip" hv
  refine ⟨?_, "❌ Error: Model file " ++ squote ++ "fin_disease.pth" ++ squote
      ++ " not found", ?_, "❌ Error: Model file " ++ squote,
      squote ++ " not found", ?_⟩
  · simp [main_run, hz]
  · simp [main_run, hz, hvt]
  · simp [String.append_assoc]

/-- Witness for C1 at a concrete world with an empty filesystem. -/
theorem C1_missing_model_fatal_witness :
    (main_run (mkWorld fsEmpty false 0 false true)).1 = .exited 1 ∧
    ∃ s, Event.print s ∈ (main_run (mkWorld fsEmpty false 0 false true)).2 ∧
      ∃ pre post, s = pre ++ "fin_disease.pth" ++ post :=
  C1_missing_model_fatal (mkWorld fsEmpty false 0 false true) (by decide)

/-- Claim C2: an existing but zero-byte model file fails validation, and
`create_zip_archive` returns `false` without ever invoking the external zip
command, leaving the filesystem unchanged (no archive produced). -/
theorem C2_empty_model_no_archive (w : World) (p zn : String)
    (hex : w.fs.pathExists p = true) (hz : w.fs.size p = 0) :
    (validate_model_file w.fs p).1 = false ∧
    (create_zip_archive w w.fs p zn).1 = false ∧
    (∀ c e, Event.system c e ∉ (create_zip_archive w w.fs p zn).2.1) ∧
    (create_zip_archive w w.fs p zn).2.2 = w.fs := by
  have hv : (validate_model_file w.fs p).1 = false := by
    unfold validate_model_file
    simp [hex, hz]
  have hct := czip_of_invalid w w.fs p zn hv
  refine ⟨hv, by rw [hct], ?_, by rw [hct]⟩
  intro c e hmem
  have hcontra := (czip_system_mem w w.fs p zn c e hmem).1
  rw [hv] at hcontra
  exact Bool.noConfusion hcontra

/-- Witness for C2 at a concrete world holding a zero-byte model file. -/
theorem C2_empty_model_no_archive_witness :
    (validate_model_file (mkWorld (fsOne "m.pth" 0) true 0 false true).fs "m.pth").1 = false ∧
    (create_zip_archive (mkWorld (fsOne "m.pth" 0) true 0 false true)
      (mkWorld (fsOne "m.pth" 0) true 0 false true).fs "m.pth" "m.zip").1 = false ∧
    (∀ c e, Event.system c e ∉ (create_zip_archive (mkWorld (fsOne "m.pth" 0) true 0 false true)
      (mkWorld (fsOne "m.pth" 0) true 0 false true).fs "m.pth" "m.zip").2.1) ∧
    (create_zip_archive (mkWorld (fsOne "m.pth" 0) true 0 false true)
      (mkWorld (fsOne "m.pth" 0) true 0 false true).fs "m.pth" "m.zip").2.2 =
      (mkWorld (fsOne "m.pth" 0) true 0 false true).fs :=
  C2_empty_model_no_archive (mkWorld (fsOne "m.pth" 0) true 0 false true) "m.pth" "m.zip"
    (by decide) (by decide)

/-- Counterexample to claim C3 as stated: outside Colab, calling
`download_model_zip` on an archive path that does not exist returns `false`
and prints no simulated-transfer message, so the claim's "for every archive
path" fails. -/
theorem C3_counterexample :
    (mkWorld fsEmpty true 0 false true).inColab = false ∧
    ¬((download_model_zip (mkWorld fsEmpty true 0 false true) fsEmpty "fin_disease.zip").1 = true ∧
      Event.print "🔄 Simulating download (not in Colab environment)..." ∈
        (download_model_zip (mkWorld fsEmpty true 0 false true) fsEmpty "fin_disease.zip").2) := by
  decide

/-- Claim C3 (amended): outside Colab, for every archive path that exists
on the filesystem, `download_model_zip` returns `true`, prints the
simulated-transfer message, and performs no platform download call (the
only operation in that branch that could raise). -/
theorem C3_simulated_download (w : World) (fs : FS) (zp : String)
    (hc : w.inColab = false) (hex : fs.pathExists zp = true) :
    (download_model_zip w fs zp).1 = true ∧
    Event.print "🔄 Simulating download (not in Colab environment)..."
      ∈ (download_model_zip w fs zp).2 ∧
    ∀ q ok, Event.colabDownload q ok ∉ (download_model_zip w fs zp).2 := by
  unfold download_model_zip
  simp [hc, hex]

/-- Witness for the amended C3 at a concrete world holding the archive. -/
theorem C3_simulated_download_witness :
    (download_model_zip (mkWorld (fsOne "z.zip" 3) true 0 false true) (fsOne "z.zip" 3) "z.zip").1 = true ∧
    Event.print "🔄 Simulating download (not in Colab environment)..."
      ∈ (download_model_zip (mkWorld (fsOne "z.zip" 3) true 0 false true) (fsOne "z.zip" 3) "z.zip").2 ∧
    ∀ q ok, Event.colabDownload q ok ∉
      (download_model_zip (mkWorld (fsOne "z.zip" 3) true 0 false true) (fsOne "z.zip" 3) "z.zip").2 :=
  C3_simulated_download (mkWorld (fsOne "z.zip" 3) true 0 false true) (fsOne "z.zip" 3) "z.zip"
    (by decide) (by decide)

/-- Claim C4: for a model file that exists and is non-empty, the metadata
content contains the exact basename of the model path, contains the size
string, and that size string ends in " MB". -/
theorem C4_metadata_fields (fs : FS) (p : String)
    (hex : fs.pathExists p = true) (_hnz : fs.size p ≠ 0) :
    (∃ pre post, metadata_content fs p = pre ++ basename p ++ post) ∧
    (∃ pre post, metadata_content fs p = pre ++ get_file_size_mb fs p ++ post) ∧
    (∃ t, get_file_size_mb fs p = t ++ " MB") := by
  refine ⟨⟨"Model Information\n==================\nModel file: ",
      "\nFile size: " ++ get_file_size_mb fs p ++ "\nCreated: "
        ++ toString (fs.ctime p)
        ++ "\nDescription: Fine-tuned disease classification model\n", ?_⟩,
    ⟨"Model Information\n==================\nModel file: " ++ basename p
        ++ "\nFile size: ",
      "\nCreated: " ++ toString (fs.ctime p)
        ++ "\nDescription: Fine-tuned disease classification model\n", ?_⟩, ?_⟩
  · simp [metadata_content, String.append_assoc]
  · simp [metadata_content, String.append_assoc]
  · have hmb : get_file_size_mb fs p = formatMB (fs.size p) := by
      unfold get_file_size_mb
      simp [hex]
    rw [hmb]
    exact ⟨_, rfl⟩

/-- Witness for C4 at a concrete filesystem with one non-empty file. -/
theorem C4_metadata_fields_witness :
    (∃ pre post, metadata_content (fsOne "d/m.pth" 7) "d/m.pth" = pre ++ basename "d/m.pth" ++ post) ∧
    (∃ pre post, metadata_content (fsOne "d/m.pth" 7) "d/m.pth"
      = pre ++ get_file_size_mb (fsOne "d/m.pth" 7) "d/m.pth" ++ post) ∧
    (∃ t, get_file_size_mb (fsOne "d/m.pth" 7) "d/m.pth" = t ++ " MB") :=
  C4_metadata_fields (fsOne "d/m.pth" 7) "d/m.pth" (by decide) (by decide)

/-- Claim C5: when the metadata write fails, `create_model_metadata`
returns `None` and prints a warning, and `create_zip_archive` still runs
the zip command — without the metadata file attached — succeeding exactly
when the command exits zero, so the metadata failure is not fatal. -/
theorem C5_metadata_failure_nonfatal (w : World) (p zn : String)
    (hex : w.fs.pathExists p = true) (hnz : w.fs.size p ≠ 0)
    (hw : w.writeOk (metadata_path p) = false) :
    (create_model_metadata w w.fs p).1 = none ∧
    Event.print ("⚠️  Warning: Could not create metadata file: " ++ w.writeErr)
      ∈ (create_model_metadata w w.fs p).2.1 ∧
    Event.system ("zip -r " ++ zn ++ " " ++ p)
        (w.sysExit ("zip -r " ++ zn ++ " " ++ p))
      ∈ (create_zip_archive w w.fs p zn).2.1 ∧
    ((create_zip_archive w w.fs p zn).1 = true ↔
      w.sysExit ("zip -r " ++ zn ++ " " ++ p) = 0) := by
  have hv : (validate_model_file w.fs p).1 = true := by
    unfold validate_model_file
    simp [hex, hnz]
  have hmd : create_model_metadata w w.fs p =
      (none, [Event.fileWrite (metadata_path p) false,
        Event.print ("⚠️  Warning: Could not create metadata file: " ++ w.writeErr)],
        w.fs) := by
    simp only [create_model_metadata]
    simp [hw]
  have hcmd : build_zip_command (create_model_metadata w w.fs p).1
      (create_model_metadata w w.fs p).2.2 p zn = "zip -r " ++ zn ++ " " ++ p := by
    rw [hmd]
    rfl
  refine ⟨by rw [hmd], by rw [hmd]; simp, ?_, ?_⟩
  · by_cases hc : w.sysExit ("zip -r " ++ zn ++ " " ++ p) = 0
    · rw [czip_of_valid_ok w w.fs p zn hv (by rw [hcmd]; exact hc), hcmd, hc]
      simp
    · rw [czip_of_valid_fail w w.fs p zn hv (by rw [hcmd]; exact hc), hcmd]
      simp
  · by_cases hc : w.sysExit ("zip -r " ++ zn ++ " " ++ p) = 0
    · rw [czip_of_valid_ok w w.fs p zn hv (by rw [hcmd]; exact hc)]
      simp [hc]
    · rw [czip_of_valid_fail w w.fs p zn hv (by rw [hcmd]; exact hc)]
      simp [hc]

/-- Witness for C5 at a concrete world whose metadata write fails. -/
theorem C5_metadata_failure_nonfatal_witness :
    (create_model_metadata (mkWorld (fsOne "m.pth" 9) false 0 false true)
      (mkWorld (fsOne "m.pth" 9) false 0 false true).fs "m.pth").1 = none ∧
    Event.print ("⚠️  Warning: Could not create metadata file: "
        ++ (mkWorld (fsOne "m.pth" 9) false 0 false true).writeErr)
      ∈ (create_model_metadata (mkWorld (fsOne "m.pth" 9) false 0 false true)
          (mkWorld (fsOne "m.pth" 9) false 0 false true).fs "m.pth").2.1 ∧
    Event.system ("zip -r " ++ "m.zip" ++ " " ++ "m.pth")
        ((mkWorld (fsOne "m.pth" 9) false 0 false true).sysExit
          ("zip -r " ++ "m.zip" ++ " " ++ "m.pth"))
      ∈ (create_zip_archive (mkWorld (fsOne "m.pth" 9) false 0 false true)
          (mkWorld (fsOne "m.pth" 9) false 0 false true).fs "m.pth" "m.zip").2.1 ∧
    ((create_zip_archive (mkWorld (fsOne "m.pth" 9) false 0 false true)
        (mkWorld (fsOne "m.pth" 9) false 0 false true).fs "m.pth" "m.zip").1 = true ↔
      (mkWorld (fsOne "m.pth" 9) false 0 false true).sysExit
        ("zip -r " ++ "m.zip" ++ " " ++ "m.pth") = 0) :=
  C5_metadata_failure_nonfatal (mkWorld (fsOne "m.pth" 9) false 0 false true)
    "m.pth" "m.zip" (by decide) (by decide) (by decide)

/-- Claim C6: `create_zip_archive` succeeds exactly when the executed zip
command's status is zero (when no command ran, it returns `false`), and any
non-zero command status during `main` makes the process exit with code 1. -/
theorem C6_exit_status_sole_signal :
    (∀ w fs p zn, ((create_zip_archive w fs p zn).1 = true ↔
        ∃ c, Event.system c 0 ∈ (create_zip_archive w fs p zn).2.1)) ∧
    (∀ w c e, Event.system c e ∈ (main_run w).2 → e ≠ 0 →
        (main_run w).1 = .exited 1) := by
  constructor
  · intro w fs p zn
    constructor
    · intro ht
      obtain ⟨hv, hc⟩ := czip_true_exit w fs p zn ht
      rw [czip_of_valid_ok w fs p zn hv hc]
      refine ⟨build_zip_command (create_model_metadata w fs p).1
        (create_model_metadata w fs p).2.2 p zn, ?_⟩
      simp
    · rintro ⟨c, hmem⟩
      obtain ⟨hv, hcmd, he⟩ := czip_system_mem w fs p zn c 0 hmem
      have hc : w.sysExit (build_zip_command (create_model_metadata w fs p).1
          (create_model_metadata w fs p).2.2 p zn) = 0 := by
        rw [← hcmd, ← he]
      rw [czip_of_valid_ok w fs p zn hv hc]
  · intro w c e hmem hne
    by_cases hz : (create_zip_archive w w.fs "fin_disease.pth" "fin_disease.zip").1 = false
    · simp [main_run, hz]
    · exfalso
      have hz' : (create_zip_archive w w.fs "fin_disease.pth" "fin_disease.zip").1 = true := by
        cases hb : (create_zip_archive w w.fs "fin_disease.pth" "fin_disease.zip").1
        · exact absurd hb hz
        · rfl
      obtain ⟨hv, hc⟩ := czip_true_exit w w.fs "fin_disease.pth" "fin_disease.zip" hz'
      simp only [main_run] at hmem
      rw [if_neg hz] at hmem
      have hzmem : Event.system c e ∉
          (create_zip_archive w w.fs "fin_disease.pth" "fin_disease.zip").2.1 := by
        intro hin
        obtain ⟨_, hcmd, he⟩ := czip_system_mem w w.fs "fin_disease.pth" "fin_disease.zip" c e hin
        rw [← hcmd] at hc
        rw [he] at hne
        exact hne hc
      by_cases hd : (download_model_zip w
          (create_zip_archive w w.fs "fin_disease.pth" "fin_disease.zip").2.2
          "fin_disease.zip").1 = false
      · rw [if_pos hd] at hmem
        dsimp only at hmem
        rcases List.mem_append.mp hmem with h1 | h1
        · rcases List.mem_append.mp h1 with h2 | h2
          · rcases List.mem_append.mp h2 with h3 | h3
            · simp at h3
            · exact hzmem h3
          · exact download_no_system w _ "fin_disease.zip" c e h2
        · simp at h1
      · rw [if_neg hd] at hmem
        dsimp only at hmem
        rcases List.mem_append.mp hmem with h1 | h1
        · rcases List.mem_append.mp h1 with h2 | h2
          · rcases List.mem_append.mp h2 with h3 | h3
            · simp at h3
            · exact hzmem h3
          · exact download_no_system w _ "fin_disease.zip" c e h2
        · simp at h1

/-- Witness for C6: a concrete run whose zip command exits with status 512
makes the process exit with code 1. -/
theorem C6_exit_status_sole_signal_witness :
    (main_run (mkWorld (fsOne "fin_disease.pth" 5) true 512 false true)).1 = .exited 1 :=
  C6_exit_status_sole_signal.2 (mkWorld (fsOne "fin_disease.pth" 5) true 512 false true)
    "zip -r fin_disease.zip fin_disease.pth fin_disease_info.txt" 512
    (by decide) (by decide)

/-- Claim C7: within the archive step, a metadata write is attempted only
when validation passed, and the external zip command runs only when
validation passed: no later stage is reached after an earlier fatal one. -/
theorem C7_stage_order (w : World) (fs : FS) (p zn : String) :
    ((∃ mp ok, Event.fileWrite mp ok ∈ (create_zip_archive w fs p zn).2.1) →
      (validate_model_file fs p).1 = true) ∧
    ((∃ c e, Event.system c e ∈ (create_zip_archive w fs p zn).2.1) →
      (validate_model_file fs p).1 = true) := by
  constructor
  · rintro ⟨mp, ok, hmem⟩
    cases hv : (validate_model_file fs p).1 with
    | true => rfl
    | false =>
      exfalso
      rw [czip_of_invalid w fs p zn hv] at hmem
      rcases List.mem_append.mp hmem with h | h
      · simp at h
      · obtain ⟨s, hs⟩ := validate_events_print fs p _ h
        simp at hs
  · rintro ⟨c, e, hmem⟩
    exact (czip_system_mem w fs p zn c e hmem).1

/-- Witness for C7: in a concrete successful run both a file write and a
zip command occur, and validation indeed passed. -/
theorem C7_stage_order_witness :
    (validate_model_file (fsOne "fin_disease.pth" 5) "fin_disease.pth").1 = true :=
  (C7_stage_order (mkWorld (fsOne "fin_disease.pth" 5) true 0 false true)
      (fsOne "fin_disease.pth" 5) "fin_disease.pth" "fin_disease.zip").2
    ⟨"zip -r fin_disease.zip fin_disease.pth fin_disease_info.txt", 0, by decide⟩

/-- Claim C8: for every path that does not exist, `get_file_size_mb`
returns the string "Unknown". -/
theorem C8_unknown_size (fs : FS) (p : String) (h : fs.pathExists p = false) :
    get_file_size_mb fs p = "Unknown" := by
  unfold get_file_size_mb
  simp [h]

/-- Witness for C8 on the empty filesystem. -/
theorem C8_unknown_size_witness : get_file_size_mb fsEmpty "fin_disease.zip" = "Unknown" :=
  C8_unknown_size fsEmpty "fin_disease.zip" (by decide)

/-- Claim C9: for an archive path that does not exist, `download_model_zip`
prints an error naming the archive and returns `false`, performs no
platform download call, and prints no simulated-transfer message — in any
environment (Colab or not). -/
theorem C9_missing_archive (w : World) (fs : FS) (zp : String)
    (h : fs.pathExists zp = false) :
    (download_model_zip w fs zp).1 = false ∧
    (∃ s, Event.print s ∈ (download_model_zip w fs zp).2 ∧
      ∃ pre post, s = pre ++ zp ++ post) ∧
    (∀ q ok, Event.colabDownload q ok ∉ (download_model_zip w fs zp).2) ∧
    Event.print "🔄 Simulating download (not in Colab environment)..."
      ∉ (download_model_zip w fs zp).2 := by
  have hfc : ∀ r : String, ("❌ Error: Zip file " ++ r).data.head? = some '❌' := by
    intro r
    rw [String.data_append]
    rfl
  have ht : (download_model_zip w fs zp).2 =
      [Event.print ("❌ Error: Zip file " ++ squote ++ zp ++ squote ++ " was not created")] := by
    unfold download_model_zip
    simp [h]
  refine ⟨by unfold download_model_zip; simp [h],
    ⟨"❌ Error: Zip file " ++ squote ++ zp ++ squote ++ " was not created",
      by rw [ht]; simp, "❌ Error: Zip file " ++ squote, squote ++ " was not created",
      by simp [String.append_assoc]⟩, ?_, ?_⟩
  · intro q ok
    rw [ht]
    simp
  · rw [ht]
    simp only [List.mem_singleton]
    intro hmem
    have heq := (Event.print.inj hmem)
    have hhead := congrArg (fun s => s.data.head?) heq
    simp only [] at hhead
    rw [String.append_assoc, String.append_assoc, String.append_assoc, hfc] at hhead
    exact absurd hhead (by decide)

/-- Witness for C9 on the empty filesystem. -/
theorem C9_missing_archive_witness :
    (download_model_zip (mkWorld fsEmpty true 0 true true) fsEmpty "fin_disease.zip").1 = false ∧
    (∃ s, Event.print s ∈ (download_model_zip (mkWorld fsEmpty true 0 true true) fsEmpty "fin_disease.zip").2 ∧
      ∃ pre post, s = pre ++ "fin_disease.zip" ++ post) ∧
    (∀ q ok, Event.colabDownload q ok ∉
      (download_model_zip (mkWorld fsEmpty true 0 true true) fsEmpty "fin_disease.zip").2) ∧
    Event.print "🔄 Simulating download (not in Colab environment)..."
      ∉ (download_model_zip (mkWorld fsEmpty true 0 true true) fsEmpty "fin_disease.zip").2 :=
  C9_missing_archive (mkWorld fsEmpty true 0 true true) fsEmpty "fin_disease.zip" (by decide)

/-- Claim C10: every zip command executed by `create_zip_archive` contains
the model path, and carries the metadata path appended exactly when
metadata creation returned a path that exists at command-build time;
otherwise the command is the bare `zip -r <zip> <model>`. -/
theorem C10_zip_command_contents (w : World) (fs : FS) (p zn c : String) (e : Int)
    (h : Event.system c e ∈ (create_zip_archive w fs p zn).2.1) :
    (∃ pre post, c = pre ++ p ++ post) ∧
    ((create_model_metadata w fs p).1 = none → c = "zip -r " ++ zn ++ " " ++ p) ∧
    (∀ mdp, (create_model_metadata w fs p).1 = some mdp →
      ((create_model_metadata w fs p).2.2.pathExists mdp = true →
        c = "zip -r " ++ zn ++ " " ++ p ++ " " ++ mdp ∧
        c ≠ "zip -r " ++ zn ++ " " ++ p) ∧
      ((create_model_metadata w fs p).2.2.pathExists mdp = false →
        c = "zip -r " ++ zn ++ " " ++ p)) := by
  obtain ⟨hv, hcmd, he⟩ := czip_system_mem w fs p zn c e h
  refine ⟨?_, ?_, ?_⟩
  · rw [hcmd]
    unfold build_zip_command
    cases hmd : (create_model_metadata w fs p).1 with
    | none =>
      refine ⟨"zip -r " ++ zn ++ " ", "", ?_⟩
      simp [String.append_empty, String.append_assoc]
    | some mdp =>
      by_cases hpe : (create_model_metadata w fs p).2.2.pathExists mdp = true
      · refine ⟨"zip -r " ++ zn ++ " ", " " ++ mdp, ?_⟩
        simp [hpe, String.append_assoc]
      · refine ⟨"zip -r " ++ zn ++ " ", "", ?_⟩
        simp only [Bool.not_eq_true] at hpe
        simp [hpe, String.append_empty, String.append_assoc]
  · intro hmd
    rw [hcmd]
    unfold build_zip_command
    rw [hmd]
  · intro mdp hmd
    constructor
    · intro hpe
      constructor
      · rw [hcmd]
        unfold build_zip_command
        rw [hmd]
        simp [hpe]
      · rw [hcmd]
        unfold build_zip_command
        rw [hmd]
        simp only [hpe, if_true]
        intro hbad
        have hlen := congrArg String.length hbad
        rw [String.length_append, String.length_append] at hlen
        have hone : (" " : String).length = 1 := rfl
        rw [hone] at hlen
        omega
    · intro hpe
      rw [hcmd]
      unfold build_zip_command
      rw [hmd]
      simp [hpe]

/-- Witness for C10 at a concrete run whose metadata write succeeds, so the
metadata path is attached to the executed command. -/
theorem C10_zip_command_contents_witness :
    (∃ pre post, ("zip -r " ++ "m.zip" ++ " " ++ "m.pth" ++ " " ++ "m_info.txt")
      = pre ++ "m.pth" ++ post) ∧
    ((create_model_metadata (mkWorld (fsOne "m.pth" 9) true 0 false true)
        (fsOne "m.pth" 9) "m.pth").1 = none →
      ("zip -r " ++ "m.zip" ++ " " ++ "m.pth" ++ " " ++ "m_info.txt")
        = "zip -r " ++ "m.zip" ++ " " ++ "m.pth") ∧
    (∀ mdp, (create_model_metadata (mkWorld (fsOne "m.pth" 9) true 0 false true)
        (fsOne "m.pth" 9) "m.pth").1 = some mdp →
      (((create_model_metadata (mkWorld (fsOne "m.pth" 9) true 0 false true)
          (fsOne "m.pth" 9) "m.pth").2.2.pathExists mdp = true →
        ("zip -r " ++ "m.zip" ++ " " ++ "m.pth" ++ " " ++ "m_info.txt")
          = "zip -r " ++ "m.zip" ++ " " ++ "m.pth" ++ " " ++ mdp ∧
        ("zip -r " ++ "m.zip" ++ " " ++ "m.pth" ++ " " ++ "m_info.txt")
          ≠ "zip -r " ++ "m.zip" ++ " " ++ "m.pth") ∧
      ((create_model_metadata (mkWorld (fsOne "m.pth" 9) true 0 false true)
          (fsOne "m.pth" 9) "m.pth").2.2.pathExists mdp = false →
        ("zip -r " ++ "m.zip" ++ " " ++ "m.pth" ++ " " ++ "m_info.txt")
          = "zip -r " ++ "m.zip" ++ " " ++ "m.pth"))) :=
  C10_zip_command_contents (mkWorld (fsOne "m.pth" 9) true 0 false true)
    (fsOne "m.pth" 9) "m.pth" "m.zip"
    ("zip -r " ++ "m.zip" ++ " " ++ "m.pth" ++ " " ++ "m_info.txt") 0 (by decide)
